import Mathlib

/-!
Verification development for the era5_for_WPS download scripts.

The repository has two Python scripts:
  * src/download_era5_rda.py  -- per-variable direct URLs against the NCAR RDA
    archive (Strategy B in the design document);
  * src/download_era5_cds.py  -- bulk per-day requests against the CDS API
    (Strategy A).

We give a shallow embedding of their pure logic: URL/filename construction,
the Gregorian last-day-of-month computation, variable-table filtering, the
day-range expansion, the error-page sniff of download_file, and the batch
loops (with the filesystem modelled as a list of file names on disk and the
network modelled as an oracle saying whether a given fetch succeeds).
-/

namespace ERA5

/-- Model of Python string zero-fill as used by format specifiers such as
02d and 03d: pad on the left with the character 0 up to the given width. -/
def zfill (w : Nat) (s : String) : String :=
  String.mk (List.replicate (w - s.length) '0') ++ s

/-- Model of the Python format specifier 02d on a natural number. -/
def pad2 (n : Nat) : String := zfill 2 (toString n)

/-- Model of the Python format specifier 03d on a natural number. -/
def pad3 (n : Nat) : String := zfill 3 (toString n)

/-- Model of Python int(s) on the all-digit strings used as parameter
codes: interpret the characters as decimal digits, most significant
first. -/
def toNatD (s : String) : Nat :=
  s.data.foldl (fun acc c => acc * 10 + (c.toNat - 48)) 0

/-- ASCII lowercasing of one byte, as done by Python bytes.lower and
str.lower on the ASCII variable names used here. -/
def byteLower (c : Char) : Char :=
  if 65 ≤ c.toNat ∧ c.toNat ≤ 90 then Char.ofNat (c.toNat + 32) else c

/-- Model of Python str.lower on the ASCII mnemonics used in the tables. -/
def lowerName (s : String) : String := String.mk (s.data.map byteLower)

/-- Model of Python range(a, b) as a list of naturals (empty when b ≤ a). -/
def pyRange (a b : Nat) : List Nat := List.range' a (b - a)

/-- Boolean test that the first list is an initial segment of the second. -/
def isPrefixList : List Char → List Char → Bool
  | [], _ => true
  | _ :: _, [] => false
  | a :: as, b :: bs => a == b && isPrefixList as bs

/-- Boolean test that the first list occurs contiguously inside the
second, modelling the Python bytes membership operator. -/
def isInfixList (needle : List Char) : List Char → Bool
  | [] => needle.isEmpty
  | c :: rest => isPrefixList needle (c :: rest) || isInfixList needle rest

/-- Outcome of processing one download unit, as classified by the batch
loops into their three counters. -/
inductive FetchOutcome where
  | downloaded
  | skipped
  | failed
deriving DecidableEq

/-- Counters accumulated by a batch loop, in the order they are printed:
success_count, skip_count, fail_count. -/
structure BatchResult where
  downloaded : Nat
  skipped : Nat
  failed : Nat
deriving DecidableEq

/-- Observable event of one loop iteration: either the unit was skipped
because its file already existed, or download_file / client.retrieve was
invoked (network activity) with the given success flag. -/
inductive Event where
  | skip : String → Event
  | fetch : String → Bool → Event
deriving DecidableEq

/-- Number of occurrences of an event in a trace. -/
def countEvent (e : Event) : List Event → Nat
  | [] => 0
  | x :: xs => (if x = e then 1 else 0) + countEvent e xs

namespace RDA

/-- One row of a variable table of download_era5_rda.py:
WPS_NAME mapped to (ecmwf_param, level_type, description). -/
structure VarEntry where
  name : String
  param : String
  level_type : String
  desc : String
deriving DecidableEq

/-- PRESSURE_LEVEL_VARS from src/download_era5_rda.py. -/
def PRESSURE_LEVEL_VARS : List VarEntry := [
  ⟨"Z", "129", "pl", "Geopotential"⟩,
  ⟨"Q", "133", "pl", "Specific humidity"⟩,
  ⟨"T", "130", "pl", "Temperature"⟩,
  ⟨"U", "131", "pl", "U component of wind"⟩,
  ⟨"V", "132", "pl", "V component of wind"⟩]

/-- SINGLE_LEVEL_VARS from src/download_era5_rda.py. -/
def SINGLE_LEVEL_VARS : List VarEntry := [
  ⟨"SP", "134", "sfc", "Surface pressure"⟩,
  ⟨"MSL", "151", "sfc", "Mean sea level pressure"⟩,
  ⟨"2T", "167", "sfc", "2m temperature"⟩,
  ⟨"2D", "168", "sfc", "2m dewpoint temperature"⟩,
  ⟨"10U", "165", "sfc", "10m U wind component"⟩,
  ⟨"10V", "166", "sfc", "10m V wind component"⟩,
  ⟨"SSTK", "34", "sfc", "Sea surface temperature"⟩,
  ⟨"SKT", "235", "sfc", "Skin temperature"⟩,
  ⟨"LSM", "172", "sfc", "Land-sea mask"⟩,
  ⟨"CI", "31", "sfc", "Sea ice cover"⟩,
  ⟨"SD", "141", "sfc", "Snow depth"⟩,
  ⟨"RSN", "33", "sfc", "Snow density"⟩,
  ⟨"SWVL1", "39", "sfc", "Volumetric soil water layer 1"⟩,
  ⟨"SWVL2", "40", "sfc", "Volumetric soil water layer 2"⟩,
  ⟨"SWVL3", "41", "sfc", "Volumetric soil water layer 3"⟩,
  ⟨"SWVL4", "42", "sfc", "Volumetric soil water layer 4"⟩,
  ⟨"STL1", "139", "sfc", "Soil temperature level 1"⟩,
  ⟨"STL2", "170", "sfc", "Soil temperature level 2"⟩,
  ⟨"STL3", "183", "sfc", "Soil temperature level 3"⟩,
  ⟨"STL4", "236", "sfc", "Soil temperature level 4"⟩]

/-- RDA_BASE_URL from src/download_era5_rda.py. -/
def RDA_BASE_URL : String :=
  "https://tds.gdex.ucar.edu/thredds/fileServer/files/g/d633000"

/-- The var_map dictionary inside build_rda_url: parameter code mapped to
the pair (variable short name, grid type). -/
def var_map : List (String × String × String) := [
  ("129", "z", "sc"),
  ("130", "t", "sc"),
  ("131", "u", "uv"),
  ("132", "v", "uv"),
  ("133", "q", "sc"),
  ("134", "sp", "sc"),
  ("151", "msl", "sc"),
  ("167", "2t", "sc"),
  ("168", "2d", "sc"),
  ("165", "10u", "uv"),
  ("166", "10v", "uv"),
  ("34", "sst", "sc"),
  ("235", "skt", "sc"),
  ("172", "lsm", "sc"),
  ("31", "ci", "sc"),
  ("141", "sd", "sc"),
  ("33", "rsn", "sc"),
  ("39", "swvl1", "sc"),
  ("40", "swvl2", "sc"),
  ("41", "swvl3", "sc"),
  ("42", "swvl4", "sc"),
  ("139", "stl1", "sc"),
  ("170", "stl2", "sc"),
  ("183", "stl3", "sc"),
  ("236", "stl4", "sc")]

/-- The date string of build_rda_url: year followed by 02d month and day. -/
def date_str (year month day : Nat) : String :=
  toString year ++ pad2 month ++ pad2 day

/-- build_rda_url from src/download_era5_rda.py, returning (url, filename).
An unknown parameter code falls back to the dictionary-get default
(unknown, sc), exactly as the Python var_map.get call does. -/
def build_rda_url (year month day : Nat) (param level_type : String) :
    String × String :=
  let vg := (List.lookup param var_map).getD ("unknown", "sc")
  let filename :=
    "e5.oper.an." ++ level_type ++ ".128_" ++ param ++ "_" ++ vg.1 ++
      ".ll025" ++ vg.2 ++ "." ++ date_str year month day ++ "00_" ++
      date_str year month day ++ "23.nc"
  let url := RDA_BASE_URL ++ "/e5.oper.an." ++ level_type ++ "/" ++
      toString year ++ pad2 month ++ "/" ++ filename
  (url, filename)

/-- Gregorian leap-year rule, as implemented by calendar.isleap. -/
def isLeapYear (y : Nat) : Bool :=
  y % 4 == 0 && (y % 100 != 0 || y % 400 == 0)

/-- Last day of the month, as returned in the second component of
calendar.monthrange (standard Gregorian month lengths). -/
def monthrange_last_day (year month : Nat) : Nat :=
  if month == 2 then (if isLeapYear year then 29 else 28)
  else if month == 4 || month == 6 || month == 9 || month == 11 then 30
  else 31

/-- Monthly single-level filename built inside download_era5_single_levels.
The source unpacks (var_code, grid_type) from param when it is a tuple and
otherwise uses (param, sc); every value in SINGLE_LEVEL_VARS is a plain
string, so grid_type is the constant sc. The code is zero-padded to three
digits with int(var_code) and 03d, and the short name is the lowercased
WPS mnemonic. The last day of the month appears unpadded, as in the
source f-string. -/
def single_level_filename (year month : Nat) (var_name param : String) :
    String :=
  let last_day := monthrange_last_day year month
  let var_code_padded := pad3 (toNatD param)
  let grid_type := "sc"
  let start_datetime := toString year ++ pad2 month ++ "0100"
  let end_datetime := toString year ++ pad2 month ++ toString last_day ++ "23"
  "e5.oper.an.sfc.128_" ++ var_code_padded ++ "_" ++ lowerName var_name ++
    ".ll025" ++ grid_type ++ "." ++ start_datetime ++ "_" ++ end_datetime ++
    ".nc"

/-- Result of the wget subprocess call inside download_file, abstracted:
either wget exits non-zero (CalledProcessError), or it succeeds leaving a
file on disk whose bytes are the given character list. -/
inductive WgetResult where
  | err
  | ok : List Char → WgetResult

/-- The error-page sniff of download_file: the first 100 bytes are read,
lowercased, and searched for the byte strings matching html markup or the
word error. -/
def looks_like_error_page (contents : List Char) : Bool :=
  let header := (contents.take 100).map byteLower
  isInfixList "<html".data header || isInfixList "error".data header

/-- Model of download_file from src/download_era5_rda.py after the wget
invocation is abstracted into a WgetResult. The first component is the
boolean the function returns; the second records whether a file remains on
disk when the function returns. Credentials missing: return False before
any network call and no file is created. A wget failure deletes any
partial file. A successful transfer whose size is below 1000 bytes and
whose header looks like an error page is unlinked and reported False;
otherwise the file stays and the result is True. -/
def download_file (creds : Bool) (w : WgetResult) : Bool × Bool :=
  if creds = false then (false, false)
  else
    match w with
    | .err => (false, false)
    | .ok contents =>
        if contents.length < 1000 ∧ looks_like_error_page contents = true then
          (false, false)
        else (true, true)

/-- The variable filter of both batch functions in download_era5_rda.py:
with no filter the whole table is used, otherwise the dictionary
comprehension keeps exactly the entries whose key occurs in the filter
list. -/
def filterVars (table : List VarEntry) (varsFilter : Option (List String)) :
    List VarEntry :=
  match varsFilter with
  | none => table
  | some vs => table.filter fun v => vs.contains v.name

/-- Python truthiness of an optional integer argument: present and
non-zero. -/
def truthy : Option Nat → Bool
  | none => false
  | some n => n != 0

/-- The day-selection logic of main in src/download_era5_rda.py: a truthy
day argument yields that single day; otherwise truthy start and end day
arguments yield range(start_day, end_day + 1); otherwise the script
reports an error and exits (modelled as none). -/
def parse_days (day start_day end_day : Option Nat) : Option (List Nat) :=
  if truthy day then some [day.getD 0]
  else if truthy start_day && truthy end_day then
    some (pyRange (start_day.getD 0) (end_day.getD 0 + 1))
  else none

/-- One iteration of an RDA batch loop over the file with the given name:
if the file is on disk, the unit is skipped with no network activity;
otherwise download_file runs (an abstract oracle says whether it
succeeds) and on success the file appears on disk. -/
def processUnit (fetchOk : String → Bool) (disk : List String)
    (fname : String) : FetchOutcome × List String × Event :=
  if fname ∈ disk then (.skipped, disk, .skip fname)
  else if fetchOk fname then (.downloaded, fname :: disk, .fetch fname true)
  else (.failed, disk, .fetch fname false)

/-- Add one classified outcome to the batch counters. -/
def tally : FetchOutcome → BatchResult → BatchResult
  | .downloaded, r => { r with downloaded := r.downloaded + 1 }
  | .skipped, r => { r with skipped := r.skipped + 1 }
  | .failed, r => { r with failed := r.failed + 1 }

/-- The RDA batch loop over a list of target file names, threading the
disk state and recording the per-unit events in order. Every unit is
processed; a failure only increments fail_count and the loop continues. -/
def runUnits (fetchOk : String → Bool) :
    List String → List String → BatchResult × List String × List Event
  | disk, [] => (⟨0, 0, 0⟩, disk, [])
  | disk, f :: rest =>
    let p := processUnit fetchOk disk f
    let q := runUnits fetchOk p.2.1 rest
    (tally p.1 q.1, q.2.1, p.2.2 :: q.2.2)

/-- The target file names enumerated by download_era5_pressure_levels:
days in the outer loop, variables in the inner loop, each unit named by
build_rda_url. -/
def pressure_filenames (year month : Nat) :
    List Nat → List VarEntry → List String
  | [], _ => []
  | d :: ds, vars =>
    (vars.map fun v => (build_rda_url year month d v.param v.level_type).2)
      ++ pressure_filenames year month ds vars

/-- The target file names enumerated by download_era5_single_levels: one
monthly file per variable. -/
def single_filenames (year month : Nat) (vars : List VarEntry) :
    List String :=
  vars.map fun v => single_level_filename year month v.name v.param

/-- Model of download_era5_pressure_levels from src/download_era5_rda.py:
filter the pressure table, enumerate one daily unit per (day, variable),
and run the batch loop. Returns the counters, the final disk state and
the event trace. -/
def download_era5_pressure_levels (fetchOk : String → Bool)
    (disk : List String) (year month : Nat) (days : List Nat)
    (varsFilter : Option (List String)) :
    BatchResult × List String × List Event :=
  runUnits fetchOk disk
    (pressure_filenames year month days (filterVars PRESSURE_LEVEL_VARS varsFilter))

/-- Model of download_era5_single_levels from src/download_era5_rda.py:
filter the single-level table and run the batch loop over one monthly
unit per variable. -/
def download_era5_single_levels (fetchOk : String → Bool)
    (disk : List String) (year month : Nat)
    (varsFilter : Option (List String)) :
    BatchResult × List String × List Event :=
  runUnits fetchOk disk
    (single_filenames year month (filterVars SINGLE_LEVEL_VARS varsFilter))

/-- Model of main in src/download_era5_rda.py up to its exit decision:
missing credentials or a failed day selection abort before any transfer
(none); otherwise the two batches run (each unless skipped by its flag)
and their counter pairs are returned. -/
def rda_main_run (creds : Bool) (fetchOk : String → Bool)
    (disk : List String) (year month : Nat) (day sd ed : Option Nat)
    (varsFilter : Option (List String)) (skip_pressure skip_single : Bool) :
    Option (BatchResult × BatchResult) :=
  if creds = false then none
  else
    match parse_days day sd ed with
    | none => none
    | some days =>
      let plr :=
        if skip_pressure then ((⟨0, 0, 0⟩ : BatchResult), disk, ([] : List Event))
        else download_era5_pressure_levels fetchOk disk year month days varsFilter
      let slr :=
        if skip_single then ((⟨0, 0, 0⟩ : BatchResult), plr.2.1, ([] : List Event))
        else download_era5_single_levels fetchOk plr.2.1 year month varsFilter
      some (plr.1, slr.1)

/-- The exit decision at the end of main in src/download_era5_rda.py: a
run aborted on configuration (none) exits 1; a completed run exits 1
exactly when the summed fail counts are positive, and 0 otherwise. -/
def rda_exit_code : Option (BatchResult × BatchResult) → Nat
  | none => 1
  | some (pl, sl) => if pl.failed + sl.failed > 0 then 1 else 0

end RDA

namespace CDS

/-- The per-day pressure-level target file name of
src/download_era5_cds.py. -/
def pl_target (year month day : String) : String :=
  "era5_pl_" ++ year ++ month ++ day ++ ".grib"

/-- Model of the loop of download_era5_pressure_levels in
src/download_era5_cds.py: for each day, skip if the target exists,
otherwise call client.retrieve (abstracted by an oracle); on a retrieve
exception the script prints an error and calls sys.exit(1), so the loop
stops and the remaining days are never attempted. Returns the event trace
and whether the loop ran to completion (false means the process exited
with status 1). -/
def pl_loop (retrieveOk : String → Bool) (year month : String) :
    List String → List String → List Event × Bool
  | _, [] => ([], true)
  | disk, day :: rest =>
    let t := pl_target year month day
    if t ∈ disk then
      let q := pl_loop retrieveOk year month disk rest
      (.skip t :: q.1, q.2)
    else if retrieveOk t then
      let q := pl_loop retrieveOk year month (t :: disk) rest
      (.fetch t true :: q.1, q.2)
    else ([.fetch t false], false)

/-- The day-list generation of main in src/download_era5_cds.py: the days
from start_day to end_day inclusive, each formatted with 02d, with no
validation of the range. -/
def gen_days (start_day end_day : Nat) : List String :=
  (pyRange start_day (end_day + 1)).map pad2

end CDS

/-! Helper lemmas about the batch loops. -/

/-- An event absent from a trace occurs zero times in it. -/
theorem countEvent_eq_zero_of_not_mem (e : Event) :
    ∀ l : List Event, e ∉ l → countEvent e l = 0 := by
  intro l
  induction l with
  | nil => intro _; rfl
  | cons x xs ih =>
    intro h
    rw [List.mem_cons] at h
    push_neg at h
    simp only [countEvent]
    rw [if_neg (fun hx => h.1 hx.symm), ih h.2]

namespace RDA

/-- processUnit on a file already on disk: skip, unchanged disk, no
network event. -/
theorem processUnit_of_mem (fetchOk : String → Bool) (disk : List String)
    (fname : String) (h : fname ∈ disk) :
    processUnit fetchOk disk fname = (.skipped, disk, .skip fname) := by
  simp [processUnit, h]

/-- processUnit on a missing file whose fetch succeeds. -/
theorem processUnit_of_not_mem_ok (fetchOk : String → Bool)
    (disk : List String) (fname : String) (h : ¬ fname ∈ disk)
    (hk : fetchOk fname = true) :
    processUnit fetchOk disk fname =
      (.downloaded, fname :: disk, .fetch fname true) := by
  simp [processUnit, h, hk]

/-- processUnit on a missing file whose fetch fails. -/
theorem processUnit_of_not_mem_fail (fetchOk : String → Bool)
    (disk : List String) (fname : String) (h : ¬ fname ∈ disk)
    (hk : fetchOk fname = false) :
    processUnit fetchOk disk fname = (.failed, disk, .fetch fname false) := by
  simp [processUnit, h, hk]

/-- Adding one outcome to the counters raises their sum by one. -/
theorem tally_sum (o : FetchOutcome) (r : BatchResult) :
    (tally o r).downloaded + (tally o r).skipped + (tally o r).failed =
      r.downloaded + r.skipped + r.failed + 1 := by
  cases o <;> simp [tally] <;> omega

/-- The three counters of a batch run sum to the number of units. -/
theorem runUnits_sum (fetchOk : String → Bool) :
    ∀ (fns : List String) (disk : List String),
      (runUnits fetchOk disk fns).1.downloaded +
        (runUnits fetchOk disk fns).1.skipped +
        (runUnits fetchOk disk fns).1.failed = fns.length := by
  intro fns
  induction fns with
  | nil => intro disk; rfl
  | cons f rest ih =>
    intro disk
    simp only [runUnits]
    rw [tally_sum, ih]
    simp

/-- Every unit contributes exactly one event to the trace: the batch loop
never stops early. -/
theorem runUnits_trace_length (fetchOk : String → Bool) :
    ∀ (fns : List String) (disk : List String),
      ((runUnits fetchOk disk fns).2.2).length = fns.length := by
  intro fns
  induction fns with
  | nil => intro disk; rfl
  | cons f rest ih =>
    intro disk
    simp only [runUnits, List.length_cons]
    rw [ih]

/-- A file on disk at the start of a batch is never the subject of a
fetch event anywhere in the trace. -/
theorem runUnits_not_fetch_of_mem (fetchOk : String → Bool) :
    ∀ (fns disk : List String) (fname : String) (b : Bool),
      fname ∈ disk →
      Event.fetch fname b ∉ (runUnits fetchOk disk fns).2.2 := by
  intro fns
  induction fns with
  | nil => intro disk fname b _; simp [runUnits]
  | cons f rest ih =>
    intro disk fname b h
    simp only [runUnits]
    by_cases hf : f ∈ disk
    · rw [processUnit_of_mem fetchOk disk f hf]
      intro hmem
      rcases List.mem_cons.mp hmem with hhead | htail
      · exact Event.noConfusion hhead
      · exact ih disk fname b h htail
    · by_cases hk : fetchOk f = true
      · rw [processUnit_of_not_mem_ok fetchOk disk f hf hk]
        intro hmem
        rcases List.mem_cons.mp hmem with hhead | htail
        · have : fname = f := (Event.fetch.injEq _ _ _ _).mp hhead |>.1
          exact hf (this ▸ h)
        · exact ih (f :: disk) fname b (List.mem_cons_of_mem f h) htail
      · rw [processUnit_of_not_mem_fail fetchOk disk f hf
          (Bool.not_eq_true _ ▸ hk)]
        intro hmem
        rcases List.mem_cons.mp hmem with hhead | htail
        · have : fname = f := (Event.fetch.injEq _ _ _ _).mp hhead |>.1
          exact hf (this ▸ h)
        · exact ih disk fname b h htail

/-- Any given target is successfully fetched at most once in a batch:
after the first success it is on disk and skipped from then on. -/
theorem runUnits_count_fetch_le_one (fetchOk : String → Bool) :
    ∀ (fns disk : List String) (fname : String),
      countEvent (.fetch fname true) ((runUnits fetchOk disk fns).2.2) ≤ 1 := by
  intro fns
  induction fns with
  | nil => intro disk fname; simp [runUnits, countEvent]
  | cons f rest ih =>
    intro disk fname
    simp only [runUnits]
    by_cases hf : f ∈ disk
    · rw [processUnit_of_mem fetchOk disk f hf]
      simp only [countEvent]
      rw [if_neg (fun hx => Event.noConfusion hx)]
      simpa using ih disk fname
    · by_cases hk : fetchOk f = true
      · rw [processUnit_of_not_mem_ok fetchOk disk f hf hk]
        simp only [countEvent]
        by_cases hfe : f = fname
        · subst hfe
          rw [if_pos rfl]
          have hnot := runUnits_not_fetch_of_mem fetchOk rest (f :: disk) f true
            (List.mem_cons_self f disk)
          rw [countEvent_eq_zero_of_not_mem _ _ hnot]
        · rw [if_neg (fun hx => hfe ((Event.fetch.injEq _ _ _ _).mp hx).1)]
          simpa using ih (f :: disk) fname
      · rw [processUnit_of_not_mem_fail fetchOk disk f hf
          (Bool.not_eq_true _ ▸ hk)]
        simp only [countEvent]
        rw [if_neg (fun hx => Bool.noConfusion ((Event.fetch.injEq _ _ _ _).mp hx).2)]
        simpa using ih disk fname

/-- The pressure-level enumeration yields one unit per (day, variable)
pair. -/
theorem pressure_filenames_length (year month : Nat) :
    ∀ (days : List Nat) (vars : List VarEntry),
      (pressure_filenames year month days vars).length =
        days.length * vars.length := by
  intro days
  induction days with
  | nil => intro vars; simp [pressure_filenames]
  | cons d ds ih =>
    intro vars
    simp only [pressure_filenames, List.length_append, List.length_map,
      List.length_cons, ih]
    ring

/-- Dropping a mnemonic that names no table entry from the front of the
filter list does not change the filtered table. -/
theorem filterVars_cons_unknown (table : List VarEntry) (x : String)
    (vs : List String) (h : ∀ v ∈ table, v.name ≠ x) :
    filterVars table (some (x :: vs)) = filterVars table (some vs) := by
  simp only [filterVars]
  apply List.filter_congr
  intro v hv
  have hne : v.name ≠ x := h v hv
  simp [List.contains_cons, hne]

end RDA

namespace CDS

/-- When the CDS loop runs to completion it has attempted every day. -/
theorem pl_loop_complete_length (retrieveOk : String → Bool)
    (year month : String) :
    ∀ (days disk : List String),
      (pl_loop retrieveOk year month disk days).2 = true →
      ((pl_loop retrieveOk year month disk days).1).length = days.length := by
  intro days
  induction days with
  | nil => intro disk _; rfl
  | cons d ds ih =>
    intro disk h
    simp only [pl_loop] at *
    by_cases hm : pl_target year month d ∈ disk
    · rw [if_pos hm] at h ⊢
      simp only [List.length_cons]
      rw [ih disk h]
    · rw [if_neg hm] at h ⊢
      by_cases hk : retrieveOk (pl_target year month d) = true
      · rw [if_pos hk] at h ⊢
        simp only [List.length_cons]
        rw [ih (pl_target year month d :: disk) h]
      · rw [if_neg hk] at h
        exact absurd h (by simp)

/-- The CDS loop exits with status 1 exactly when some retrieve failed. -/
theorem pl_loop_false_iff (retrieveOk : String → Bool)
    (year month : String) :
    ∀ (days disk : List String),
      (pl_loop retrieveOk year month disk days).2 = false ↔
      ∃ t, Event.fetch t false ∈ (pl_loop retrieveOk year month disk days).1 := by
  intro days
  induction days with
  | nil =>
    intro disk
    simp [pl_loop]
  | cons d ds ih =>
    intro disk
    simp only [pl_loop]
    by_cases hm : pl_target year month d ∈ disk
    · rw [if_pos hm]
      constructor
      · intro h
        obtain ⟨t, ht⟩ := (ih disk).mp h
        exact ⟨t, List.mem_cons_of_mem _ ht⟩
      · intro ⟨t, ht⟩
        rcases List.mem_cons.mp ht with hhead | htail
        · exact Event.noConfusion hhead
        · exact (ih disk).mpr ⟨t, htail⟩
    · rw [if_neg hm]
      by_cases hk : retrieveOk (pl_target year month d) = true
      · rw [if_pos hk]
        constructor
        · intro h
          obtain ⟨t, ht⟩ := (ih (pl_target year month d :: disk)).mp h
          exact ⟨t, List.mem_cons_of_mem _ ht⟩
        · intro ⟨t, ht⟩
          rcases List.mem_cons.mp ht with hhead | htail
          · exact absurd ((Event.fetch.injEq _ _ _ _).mp hhead).2 (by simp)
          · exact (ih (pl_target year month d :: disk)).mpr ⟨t, htail⟩
      · rw [if_neg hk]
        simp

/-- A CDS target already on disk is never retrieved. -/
theorem pl_loop_not_fetch_of_mem (retrieveOk : String → Bool)
    (year month : String) :
    ∀ (days disk : List String) (t : String) (b : Bool),
      t ∈ disk →
      Event.fetch t b ∉ (pl_loop retrieveOk year month disk days).1 := by
  intro days
  induction days with
  | nil => intro disk t b _; simp [pl_loop]
  | cons d ds ih =>
    intro disk t b h
    simp only [pl_loop]
    by_cases hm : pl_target year month d ∈ disk
    · rw [if_pos hm]
      intro hmem
      rcases List.mem_cons.mp hmem with hhead | htail
      · exact Event.noConfusion hhead
      · exact ih disk t b h htail
    · rw [if_neg hm]
      by_cases hk : retrieveOk (pl_target year month d) = true
      · rw [if_pos hk]
        intro hmem
        rcases List.mem_cons.mp hmem with hhead | htail
        · have : t = pl_target year month d :=
            ((Event.fetch.injEq _ _ _ _).mp hhead).1
          exact hm (this ▸ h)
        · exact ih (pl_target year month d :: disk) t b
            (List.mem_cons_of_mem _ h) htail
      · rw [if_neg hk]
        intro hmem
        rcases List.mem_cons.mp hmem with hhead | htail
        · have : t = pl_target year month d :=
            ((Event.fetch.injEq _ _ _ _).mp hhead).1
          exact hm (this ▸ h)
        · exact absurd htail (by simp)

end CDS

/-! Claim theorems. -/

open RDA CDS

/-- Claim C1, counterexample: the claim quantifies over every batch loop of
the system, but the loop of download_era5_pressure_levels in
src/download_era5_cds.py calls sys.exit(1) on the first failed retrieve.
With three days where only the second would succeed, the run aborts after
the first unit: the trace holds a single attempted unit rather than all
three, and no counters are produced at all. -/
theorem C1_counterexample :
    pl_loop (fun t => t == pl_target "2014" "05" "02") "2014" "05" []
        ["01", "02", "03"] =
      ([Event.fetch (pl_target "2014" "05" "01") false], false) ∧
    ((pl_loop (fun t => t == pl_target "2014" "05" "02") "2014" "05" []
        ["01", "02", "03"]).1).length = 1 := by
  exact ⟨rfl, rfl⟩

/-- Claim C1, amended: the RDA batch loops attempt every enumerated unit
and never abort on a unit failure — with units A(fails), B(succeeds),
C(fails) the counters are downloaded 1, skipped 0, failed 2 and all three
units are attempted. The CDS script loop, by contrast, exits the process
on the first failure; it attempts every day only on runs where no
retrieve fails. -/
theorem C1_partial_failure_semantics :
    (∀ (fetchOk : String → Bool) (disk fns : List String),
      ((runUnits fetchOk disk fns).2.2).length = fns.length) ∧
    ((download_era5_pressure_levels
        (fun fn => fn == (build_rda_url 2014 5 2 "129" "pl").2) [] 2014 5
        [1, 2, 3] (some ["Z"])).1 = ⟨1, 0, 2⟩ ∧
      ((download_era5_pressure_levels
        (fun fn => fn == (build_rda_url 2014 5 2 "129" "pl").2) [] 2014 5
        [1, 2, 3] (some ["Z"])).2.2).length = 3) ∧
    (∀ (retrieveOk : String → Bool) (year month : String)
        (days disk : List String),
      (pl_loop retrieveOk year month disk days).2 = true →
      ((pl_loop retrieveOk year month disk days).1).length = days.length) := by
  refine ⟨?_, ⟨rfl, rfl⟩, ?_⟩
  · intro fetchOk disk fns
    exact runUnits_trace_length fetchOk fns disk
  · intro retrieveOk year month days disk h
    exact pl_loop_complete_length retrieveOk year month days disk h

/-- Claim C1, witness: the CDS conjunct applied to a concrete two-day run
in which every retrieve succeeds, so the loop completes and both days
appear in the trace. -/
theorem C1_witness :
    (pl_loop (fun _ => true) "2014" "05" [] ["01", "02"]).2 = true ∧
    ((pl_loop (fun _ => true) "2014" "05" [] ["01", "02"]).1).length = 2 :=
  ⟨rfl, C1_partial_failure_semantics.2.2 (fun _ => true) "2014" "05"
    ["01", "02"] [] rfl⟩

/-- Claim C2: a unit whose target file is already on disk is skipped with
the disk unchanged and a skip event (no network activity); a file on disk
when the batch starts is never the subject of a fetch event; any given
target is successfully fetched at most once per batch; and the CDS loop
likewise never retrieves a target already on disk. -/
theorem C2_skip_existing_no_network :
    (∀ (fetchOk : String → Bool) (disk : List String) (fname : String),
      fname ∈ disk →
      processUnit fetchOk disk fname = (.skipped, disk, .skip fname)) ∧
    (∀ (fetchOk : String → Bool) (fns disk : List String) (fname : String)
        (b : Bool), fname ∈ disk →
      Event.fetch fname b ∉ (runUnits fetchOk disk fns).2.2) ∧
    (∀ (fetchOk : String → Bool) (fns disk : List String) (fname : String),
      countEvent (.fetch fname true) ((runUnits fetchOk disk fns).2.2) ≤ 1) ∧
    (∀ (retrieveOk : String → Bool) (year month : String)
        (days disk : List String) (t : String) (b : Bool),
      t ∈ disk →
      Event.fetch t b ∉ (pl_loop retrieveOk year month disk days).1) := by
  exact ⟨processUnit_of_mem, runUnits_not_fetch_of_mem,
    runUnits_count_fetch_le_one, pl_loop_not_fetch_of_mem⟩

/-- Claim C2, witness: on a disk already holding the day-1 Z file, the
batch over that file and a second file skips the first and never fetches
it. -/
theorem C2_witness :
    processUnit (fun _ => true) ["f1"] "f1" = (.skipped, ["f1"], .skip "f1") ∧
    Event.fetch "f1" true ∉
      ((runUnits (fun _ => true) ["f1"] ["f1", "f2"]).2.2) ∧
    Event.fetch "f1" false ∉
      (pl_loop (fun _ => true) "2014" "05" ["f1"] ["01"]).1 :=
  ⟨C2_skip_existing_no_network.1 (fun _ => true) ["f1"] "f1" (by simp),
    C2_skip_existing_no_network.2.1 (fun _ => true) ["f1", "f2"] ["f1"] "f1"
      true (by simp),
    C2_skip_existing_no_network.2.2.2 (fun _ => true) "2014" "05" ["01"]
      ["f1"] "f1" false (by simp)⟩

/-- Claim C3: the claim states that an unknown parameter code makes
build_rda_url fail loudly; the code instead takes the dictionary-get
default (unknown, sc), so the parameter code 999 — absent from var_map —
silently yields a filename embedding the placeholder short name unknown,
which can only produce a dead URL. This theorem evaluates the code at the
failing input. -/
theorem C3_unknown_param_placeholder :
    List.lookup "999" var_map = none ∧
    (build_rda_url 2014 5 1 "999" "pl").2 =
      "e5.oper.an.pl.128_999_unknown.ll025sc.2014050100_2014050123.nc" ∧
    isInfixList "unknown".data ((build_rda_url 2014 5 1 "999" "pl").2).data =
      true := by
  refine ⟨rfl, rfl, ?_⟩
  decide

/-- Claim C4, counterexample: the inverted range start_day 10, end_day 5
is not rejected: main in the RDA script silently produces the empty day
list, the run proceeds with zero pressure-level units and exits 0, and
the CDS script likewise builds an empty day list with no validation. -/
theorem C4_counterexample :
    parse_days none (some 10) (some 5) = some [] ∧
    gen_days 10 5 = [] ∧
    rda_exit_code (rda_main_run true (fun _ => true) [] 2014 5 none (some 10)
      (some 5) none false true) = 0 :=
  ⟨rfl, rfl, rfl⟩

/-- Claim C4, amended: the day selection aborts the run only when neither
a truthy day argument nor a truthy start and end pair is supplied; an
inverted start/end range is accepted and silently expands to the empty
unit list, because range(start, end + 1) is empty whenever end is below
start. -/
theorem C4_day_range_behavior :
    (∀ day sd ed : Option Nat,
      parse_days day sd ed = none ↔
        (truthy day = false ∧ (truthy sd && truthy ed) = false)) ∧
    (∀ s e : Nat, e < s → pyRange s (e + 1) = []) := by
  constructor
  · intro day sd ed
    simp only [parse_days]
    by_cases hd : truthy day
    · simp [hd]
    · by_cases hse : truthy sd && truthy ed
      · simp [hd, hse]
      · simp [hd, hse]
  · intro s e h
    simp only [pyRange]
    rw [Nat.sub_eq_zero_of_le h]
    rfl

/-- Claim C4, witness: the amended theorem applied to the inverted range
10 down to 5. -/
theorem C4_witness :
    pyRange 10 (5 + 1) = [] ∧
    (parse_days none none none = none ↔
      (truthy (none : Option Nat) = false ∧
        (truthy (none : Option Nat) && truthy (none : Option Nat)) = false)) :=
  ⟨C4_day_range_behavior.2 10 5 (by decide),
    C4_day_range_behavior.1 none none none⟩

/-- Claim C5, counterexample: an unknown mnemonic in the variable filter
is not rejected; the dictionary comprehension silently intersects the
filter with the table, so filtering on BOGUS yields zero entries and the
batch runs over zero units with no error of any kind. -/
theorem C5_counterexample :
    filterVars PRESSURE_LEVEL_VARS (some ["BOGUS"]) = [] ∧
    download_era5_pressure_levels (fun _ => true) [] 2014 5 [1]
      (some ["BOGUS"]) = (⟨0, 0, 0⟩, [], []) :=
  ⟨rfl, rfl⟩

/-- Claim C5, amended: an unknown mnemonic in the filter is silently
dropped: removing it from the filter changes nothing, and every entry the
filter keeps is a table entry whose name was requested. -/
theorem C5_unknown_mnemonic_dropped :
    (∀ (table : List VarEntry) (x : String) (vs : List String),
      (∀ v ∈ table, v.name ≠ x) →
      filterVars table (some (x :: vs)) = filterVars table (some vs)) ∧
    (∀ (table : List VarEntry) (vs : List String) (v : VarEntry),
      v ∈ filterVars table (some vs) →
      v ∈ table ∧ vs.contains v.name = true) := by
  constructor
  · exact filterVars_cons_unknown
  · intro table vs v hv
    simp only [filterVars] at hv
    have h2 := List.mem_filter.mp hv
    exact ⟨h2.1, h2.2⟩

/-- Claim C5, witness: dropping the unknown mnemonic BOGUS from the
filter list leaves the filtered pressure table unchanged. -/
theorem C5_witness :
    filterVars PRESSURE_LEVEL_VARS (some ["BOGUS", "Z"]) =
      filterVars PRESSURE_LEVEL_VARS (some ["Z"]) :=
  C5_unknown_mnemonic_dropped.1 PRESSURE_LEVEL_VARS "BOGUS" ["Z"]
    (by decide)

/-- Claim C6: a fetched payload under 1000 bytes whose first 100 bytes,
lowercased, contain html markup or the token error is treated as a
disguised failure: download_file unlinks the file and returns False, so
the unit is classified failed and the bad file does not remain on disk. -/
theorem C6_error_payload_deleted (contents : List Char)
    (hsmall : contents.length < 1000)
    (hmark : looks_like_error_page contents = true) :
    download_file true (.ok contents) = (false, false) := by
  simp [download_file, hsmall, hmark]

/-- Claim C6, witness: a 17-byte payload that is an html error page is
deleted and reported as a failure. -/
theorem C6_witness :
    ("<HTML> Error page".data.length < 1000 ∧
      looks_like_error_page "<HTML> Error page".data = true) ∧
    download_file true (.ok "<HTML> Error page".data) = (false, false) :=
  ⟨⟨by decide, by decide⟩,
    C6_error_payload_deleted "<HTML> Error page".data (by decide) (by decide)⟩

/-- Claim C7: the last-day-of-month computation follows the Gregorian
rules — February has 29 days in 2016 and 2000 but 28 in 2015 and 1900,
April has 30 and May 31 — and every monthly single-level filename ends
with the segment covering hour 00 of day 1 through hour 23 of that last
calendar day. -/
theorem C7_last_day_gregorian :
    monthrange_last_day 2016 2 = 29 ∧
    monthrange_last_day 2015 2 = 28 ∧
    monthrange_last_day 2000 2 = 29 ∧
    monthrange_last_day 1900 2 = 28 ∧
    monthrange_last_day 2014 4 = 30 ∧
    monthrange_last_day 2014 5 = 31 ∧
    (∀ (year month : Nat) (var_name param : String),
      ∃ pre, single_level_filename year month var_name param =
        pre ++ (toString year ++ pad2 month ++ "0100") ++ "_" ++
          (toString year ++ pad2 month ++
            toString (monthrange_last_day year month) ++ "23") ++ ".nc") := by
  refine ⟨rfl, rfl, rfl, rfl, rfl, rfl, ?_⟩
  intro year month var_name param
  exact ⟨"e5.oper.an.sfc.128_" ++ pad3 (toNatD param) ++ "_" ++
    lowerName var_name ++ ".ll025" ++ "sc" ++ ".", rfl⟩

/-- Claim C8, counterexample: for the monthly single-level units the
(short name, grid kind) pair is not taken from the lookup table. For
SSTK (code 34) the table maps 34 to (sst, sc) but the filename embeds the
lowercased mnemonic sstk; for 10U (code 165) the table maps 165 to
(10u, uv) but the filename always uses the sc suffix — ll025uv never
occurs. -/
theorem C8_counterexample :
    List.lookup "34" var_map = some ("sst", "sc") ∧
    single_level_filename 2014 5 "SSTK" "34" =
      "e5.oper.an.sfc.128_034_sstk.ll025sc.2014050100_2014053123.nc" ∧
    List.lookup "165" var_map = some ("10u", "uv") ∧
    single_level_filename 2014 5 "10U" "165" =
      "e5.oper.an.sfc.128_165_10u.ll025sc.2014050100_2014053123.nc" ∧
    isInfixList "ll025uv".data
      ((single_level_filename 2014 5 "10U" "165").data) = false := by
  refine ⟨rfl, rfl, rfl, rfl, ?_⟩
  decide

/-- Claim C8, amended: the daily filenames built by build_rda_url embed
the parameter code as written (every pressure-level code is already three
digits) together with the (short name, grid kind) pair from the lookup
table, while the monthly single-level filenames zero-pad the code to
exactly three digits (34 becomes 034) but use the lowercased mnemonic as
short name and always the scalar grid suffix, ignoring the lookup
table. -/
theorem C8_filename_conventions :
    pad3 34 = "034" ∧
    (SINGLE_LEVEL_VARS.all fun v => (pad3 (toNatD v.param)).length == 3) =
      true ∧
    (PRESSURE_LEVEL_VARS.all fun v => v.param.length == 3) = true ∧
    (∀ (year month : Nat) (var_name param : String),
      single_level_filename year month var_name param =
        "e5.oper.an.sfc.128_" ++ pad3 (toNatD param) ++ "_" ++
          lowerName var_name ++ ".ll025" ++ "sc" ++ "." ++
          (toString year ++ pad2 month ++ "0100") ++ "_" ++
          (toString year ++ pad2 month ++
            toString (monthrange_last_day year month) ++ "23") ++ ".nc") ∧
    (∀ (year month day : Nat) (param level_type : String),
      (build_rda_url year month day param level_type).2 =
        "e5.oper.an." ++ level_type ++ ".128_" ++ param ++ "_" ++
          ((List.lookup param var_map).getD ("unknown", "sc")).1 ++
          ".ll025" ++ ((List.lookup param var_map).getD ("unknown", "sc")).2 ++
          "." ++ date_str year month day ++ "00_" ++
          date_str year month day ++ "23.nc") := by
  refine ⟨rfl, by decide, by decide, ?_, ?_⟩
  · intro year month var_name param
    rfl
  · intro year month day param level_type
    rfl

/-- Claim C9: the exit decision is binary, a completed run exits 1
exactly when the summed fail counts are positive and 0 otherwise, a run
aborts before any transfer exactly when credentials are missing or the
day selection fails, and the CDS loop exits 1 exactly when some retrieve
failed. -/
theorem C9_exit_status :
    (∀ run : Option (BatchResult × BatchResult),
      rda_exit_code run = 0 ∨ rda_exit_code run = 1) ∧
    (∀ run : Option (BatchResult × BatchResult),
      rda_exit_code run = 1 ↔
        (run = none ∨ ∃ pl sl, run = some (pl, sl) ∧
          0 < pl.failed + sl.failed)) ∧
    (∀ (creds : Bool) (fetchOk : String → Bool) (disk : List String)
        (year month : Nat) (day sd ed : Option Nat)
        (vf : Option (List String)) (sp ss : Bool),
      rda_main_run creds fetchOk disk year month day sd ed vf sp ss = none ↔
        (creds = false ∨ parse_days day sd ed = none)) ∧
    (∀ (retrieveOk : String → Bool) (year month : String)
        (days disk : List String),
      (pl_loop retrieveOk year month disk days).2 = false ↔
        ∃ t, Event.fetch t false ∈ (pl_loop retrieveOk year month disk days).1) := by
  refine ⟨?_, ?_, ?_, ?_⟩
  · intro run
    rcases run with _ | ⟨pl, sl⟩
    · right; rfl
    · by_cases h : 0 < pl.failed + sl.failed
      · right; simp [rda_exit_code, h]
      · left; simp [rda_exit_code, h]
  · intro run
    rcases run with _ | ⟨pl, sl⟩
    · simp [rda_exit_code]
    · simp only [rda_exit_code]
      by_cases h : 0 < pl.failed + sl.failed
      · rw [if_pos h]
        constructor
        · intro _
          exact Or.inr ⟨pl, sl, rfl, h⟩
        · intro _
          rfl
      · rw [if_neg h]
        constructor
        · intro h0
          exact absurd h0 (by decide)
        · intro hor
          rcases hor with hnone | ⟨pl2, sl2, heq, hpos⟩
          · exact Option.noConfusion hnone
          · injection heq with h2
            injection h2 with hp hs
            subst hp
            subst hs
            exact absurd hpos h
  · intro creds fetchOk disk year month day sd ed vf sp ss
    rcases creds with _ | _
    · simp [rda_main_run]
    · rcases hp : parse_days day sd ed with _ | days
      · simp [rda_main_run, hp]
      · simp [rda_main_run, hp]
  · intro retrieveOk year month days disk
    exact pl_loop_false_iff retrieveOk year month days disk

/-- Claim C10: each enumerated unit lands in exactly one counter: for
both RDA batch functions the sum downloaded + skipped + failed equals the
number of enumerated units — days times filtered variables for the
pressure-level batch, and the number of filtered variables for the
monthly single-level batch. -/
theorem C10_counters_partition :
    (∀ (fetchOk : String → Bool) (disk : List String) (year month : Nat)
        (days : List Nat) (vf : Option (List String)),
      (download_era5_pressure_levels fetchOk disk year month days vf).1.downloaded +
        (download_era5_pressure_levels fetchOk disk year month days vf).1.skipped +
        (download_era5_pressure_levels fetchOk disk year month days vf).1.failed =
        days.length * (filterVars PRESSURE_LEVEL_VARS vf).length) ∧
    (∀ (fetchOk : String → Bool) (disk : List String) (year month : Nat)
        (vf : Option (List String)),
      (download_era5_single_levels fetchOk disk year month vf).1.downloaded +
        (download_era5_single_levels fetchOk disk year month vf).1.skipped +
        (download_era5_single_levels fetchOk disk year month vf).1.failed =
        (filterVars SINGLE_LEVEL_VARS vf).length) := by
  constructor
  · intro fetchOk disk year month days vf
    simp only [download_era5_pressure_levels]
    rw [runUnits_sum, pressure_filenames_length]
  · intro fetchOk disk year month vf
    simp only [download_era5_single_levels]
    rw [runUnits_sum]
    simp [single_filenames]

end ERA5
